import Mathlib

/-
Verification of the chat orchestrator in src/main.py.

The service is a single FastAPI handler, handle_chat, that
(1) reads prior memories from the Mem0 HTTP service,
(2) calls the Groq chat-completion service with a three-message prompt, and
(3) best-effort writes the new exchange back to Mem0,
returning {"reply": <content>} on success and fixed 500 errors on failure
of steps (1) or (2).

We embed the handler shallowly: the outcomes of the three outbound HTTP
calls are inputs (one value per call), and the handler is a pure function
from the parsed request and those outcomes to a result (the HTTP response,
or an uncaught exception) together with a trace of the outbound calls and
log events it performed, in order.
-/

namespace MemoryAgent

/-- A record in the "memories" list of the memory-read response body.
The handler only accesses the "text" key (line 41, mem['text']); the key
may be absent, in which case that access raises KeyError. -/
structure MemoryRecord where
  text : Option String
  deriving DecidableEq, Repr

/-- The JSON body of a successful memory-read response.  Line 37 reads
response.json().get("memories", []): the "memories" key may be absent
(modelled as none), in which case the default [] is used. -/
structure MemReadBody where
  memories : Option (List MemoryRecord)
  deriving DecidableEq, Repr

/-- The pydantic request model (src/main.py lines 21-23): two required
string fields, with no further constraint on their values. -/
structure ChatRequest where
  user_id : String
  message : String
  deriving DecidableEq, Repr

/-- A raw inbound JSON body for POST /chat: each declared field is either
absent or carries a string value. -/
structure RawChatBody where
  user_id : Option String
  message : Option String
  deriving DecidableEq, Repr

/-- Models FastAPI/pydantic validation of ChatRequest: both declared
fields are required (a missing field rejects the request before the
handler runs); any string value, the empty string included, is accepted,
since the model declares plain str with no length constraint. -/
def validate_chat_request (b : RawChatBody) : Option ChatRequest :=
  match b.user_id, b.message with
  | some u, some m => some { user_id := u, message := m }
  | _, _ => none

/-- One chat message sent to the inference service: a role/content pair
(src/main.py lines 59-63). -/
structure Message where
  role : String
  content : String
  deriving DecidableEq, Repr

/-- The argument of groq_client.chat.completions.create
(src/main.py lines 58-66): the message list, the model identifier and the
sampling temperature.  The Python float literal 0.7 is modelled as the
rational 7/10; the handler never computes with it, only passes it on. -/
structure InferCall where
  messages : List Message
  model : String
  temperature : ℚ
  deriving DecidableEq, Repr

/-- Outcome of the memory-read call (lines 34-35): either a
requests.exceptions.RequestException (network error, or raise_for_status
on a non-2xx status), or a successful response with a parsed JSON body. -/
inductive ReadOutcome where
  | requestError
  | ok (body : MemReadBody)
  deriving DecidableEq, Repr

/-- Outcome of the inference call (lines 58-67): any exception (the code
catches bare Exception), or the content string of the first choice's
message. -/
inductive InferOutcome where
  | exn
  | ok (content : String)
  deriving DecidableEq, Repr

/-- Outcome of the memory-write call (line 80): a
requests.exceptions.RequestException, or an HTTP response with some
status code.  The code never inspects the status (no raise_for_status on
the POST). -/
inductive WriteOutcome where
  | requestError
  | status (code : Nat)
  deriving DecidableEq, Repr

/-- An observable event of one request, in order: an outbound call to the
memory service or the inference service, or one of the two log lines of
the memory-write step (lines 81 and 85). -/
inductive Event where
  | memRead (user_id : String)
  | infer (call : InferCall)
  | memWrite (user_id : String) (data : String)
  | logWriteSuccess
  | logWriteWarning
  deriving DecidableEq, Repr

/-- The value handle_chat produces for the HTTP layer: a 200 body
{"reply": reply}, an HTTPException with a status code and detail string,
or an exception that escapes the handler uncaught (carrying the missing
dictionary key, for KeyError). -/
inductive ChatResult where
  | ok (reply : String)
  | httpError (status : Nat) (detail : String)
  | uncaughtKeyError (key : String)
  deriving DecidableEq, Repr

/-- Result plus ordered trace of events of one handled request. -/
structure ChatOutcome where
  result : ChatResult
  trace : List Event
  deriving DecidableEq, Repr

/-- The fixed system persona instruction (src/main.py lines 52-56). -/
def system_prompt : String :=
  "You are a helpful and friendly personal assistant. " ++
  "You have a perfect memory. Use the provided memories to personalize the conversation. " ++
  "Be conversational and refer to past details naturally."

/-- The fixed bootstrap context used when no memories exist
(src/main.py line 44). -/
def bootstrap_context : String :=
  "This is the first time we are talking. Let\x27s get to know each other."

/-- The list comprehension [mem['text'] for mem in memories_data]
(line 41): extracts each record's text in order; a record lacking the
key raises KeyError('text'), modelled as .error "text" at the first such
record. -/
def mem_texts : List MemoryRecord → Except String (List String)
  | [] => .ok []
  | r :: rs =>
    match r.text with
    | none => .error "text"
    | some t => (mem_texts rs).map (fun ts => t :: ts)

/-- Python's "\n".join (line 41): concatenates the strings in order with
a newline between consecutive elements. -/
def joinNL : List String → String
  | [] => ""
  | [t] => t
  | t :: t2 :: ts => t ++ "\n" ++ joinNL (t2 :: ts)

/-- The memory-context construction of src/main.py lines 37-44, applied
to the parsed memories list: if the list is non-empty, join the texts and
wrap them in the fixed delimiters (the f-string of line 42); otherwise
use the fixed bootstrap string.  Propagates the KeyError of a record
lacking 'text'. -/
def memory_context (memories_data : List MemoryRecord) : Except String String :=
  if memories_data.isEmpty then
    .ok bootstrap_context
  else
    (mem_texts memories_data).map fun ts =>
      "--- Start of Memories ---\n" ++ joinNL ts ++ "\n--- End of Memories ---"

/-- The three-message prompt of lines 59-63: system persona, then the
memory context as a second system message, then the user turn. -/
def build_messages (ctx message : String) : List Message :=
  [ { role := "system", content := system_prompt },
    { role := "system", content := ctx },
    { role := "user", content := message } ]

/-- The full inference-call argument of lines 58-66: the three messages,
the fixed model identifier and temperature 0.7. -/
def build_infer_call (ctx message : String) : InferCall :=
  { messages := build_messages ctx message
    model := "llama3-8b-8192"
    temperature := 7 / 10 }

/-- The record text saved by the memory-write step (line 75):
f"User said: '{message}'. You replied: '{ai_response}'". -/
def interaction_to_save (message ai_response : String) : String :=
  "User said: \x27" ++ message ++ "\x27. You replied: \x27" ++ ai_response ++ "\x27"

/-- The log event of the memory-write step: line 81 prints success after
any post that returns (its status is never inspected); line 85 prints a
warning when the post raised a RequestException. -/
def write_log : WriteOutcome → Event
  | .requestError => .logWriteWarning
  | .status _ => .logWriteSuccess

/-- Shallow embedding of handle_chat (src/main.py lines 27-88) as a pure
function of the parsed request and the outcomes of the three outbound
calls.  Mirrors the source line by line: step 1 reads memories and
builds the context (RequestException becomes the fixed 500; a KeyError
from a record lacking 'text' escapes uncaught), step 2 calls inference
(any exception becomes the fixed 500, before any write), step 3 posts
the new interaction and logs, swallowing RequestException, and step 4
returns the reply. -/
def handle_chat (request : ChatRequest) (read : ReadOutcome)
    (infer : InferOutcome) (write : WriteOutcome) : ChatOutcome :=
  match read with
  | .requestError =>
    { result := .httpError 500 "Failed to retrieve memories."
      trace := [.memRead request.user_id] }
  | .ok body =>
    let memories_data := body.memories.getD []
    match memory_context memories_data with
    | .error key =>
      { result := .uncaughtKeyError key
        trace := [.memRead request.user_id] }
    | .ok ctx =>
      let call := build_infer_call ctx request.message
      match infer with
      | .exn =>
        { result := .httpError 500 "Failed to get response from LLM."
          trace := [.memRead request.user_id, .infer call] }
      | .ok ai_response =>
        { result := .ok ai_response
          trace := [.memRead request.user_id, .infer call,
                    .memWrite request.user_id (interaction_to_save request.message ai_response),
                    write_log write] }

/-- Recognizes memory-write events in a trace. -/
def isWriteEvent : Event → Bool
  | .memWrite _ _ => true
  | _ => false

/-- Recognizes inference-call events in a trace. -/
def isInferEvent : Event → Bool
  | .infer _ => true
  | _ => false

/-- Number of memory-write calls attempted in a trace. -/
def countWrites (t : List Event) : Nat := (t.filter isWriteEvent).length

/-- Number of inference calls made in a trace. -/
def countInfers (t : List Event) : Nat := (t.filter isInferEvent).length

/-- The string s decomposes as filler, then the first listed string, then
a remainder that embeds the remaining strings the same way: each listed
string is used exactly once by the decomposition, in the given order. -/
def embedsInOrder : String → List String → Prop
  | _, [] => True
  | s, t :: ts => ∃ pre rest, s = pre ++ (t ++ rest) ∧ embedsInOrder rest ts

/-- String concatenation is associative. -/
theorem string_append_assoc (a b c : String) : a ++ b ++ c = a ++ (b ++ c) := by
  apply String.ext
  simp [String.data_append, List.append_assoc]

/-- Any string of the form pre ++ (joinNL ts ++ suf) embeds ts in order. -/
theorem embedsInOrder_joinNL (ts : List String) :
    ∀ pre suf : String, embedsInOrder (pre ++ (joinNL ts ++ suf)) ts := by
  induction ts with
  | nil => intro pre suf; trivial
  | cons t ts ih =>
    intro pre suf
    cases ts with
    | nil =>
      exact ⟨pre, suf, by simp [joinNL], trivial⟩
    | cons t2 ts2 =>
      refine ⟨pre, "\n" ++ (joinNL (t2 :: ts2) ++ suf), ?_, ih "\n" suf⟩
      simp only [joinNL]
      rw [string_append_assoc t "\n" (joinNL (t2 :: ts2)),
          string_append_assoc t ("\n" ++ joinNL (t2 :: ts2)) suf,
          string_append_assoc "\n" (joinNL (t2 :: ts2)) suf]

/-- mem_texts succeeds exactly by reading each record's text in order:
the input records, viewed through their text fields, are the produced
texts. -/
theorem mem_texts_map (ms : List MemoryRecord) (ts : List String)
    (h : mem_texts ms = .ok ts) : ms.map MemoryRecord.text = ts.map some := by
  induction ms generalizing ts with
  | nil =>
    simp [mem_texts] at h
    subst h
    simp
  | cons r rs ih =>
    simp only [mem_texts] at h
    cases hr : r.text with
    | none => rw [hr] at h; exact absurd h (by simp)
    | some t =>
      rw [hr] at h
      cases hrest : mem_texts rs with
      | error e => rw [hrest] at h; exact absurd h (by simp [Except.map])
      | ok ts0 =>
        rw [hrest] at h
        simp [Except.map] at h
        subst h
        simp [hr, ih ts0 hrest]

/-- A record lacking the text key anywhere in the list makes mem_texts
raise KeyError('text'). -/
theorem mem_texts_error (ms : List MemoryRecord) (r : MemoryRecord)
    (hr : r ∈ ms) (hnone : r.text = none) : mem_texts ms = .error "text" := by
  induction ms with
  | nil => exact absurd hr (List.not_mem_nil r)
  | cons r0 rs ih =>
    rcases List.mem_cons.mp hr with heq | hmem
    · subst heq
      simp [mem_texts, hnone]
    · cases hr0 : r0.text with
      | none => simp [mem_texts, hr0]
      | some t => simp [mem_texts, hr0, ih hmem, Except.map]

/-- Claim C1: when the memory-read succeeds (and every returned record has
its text, so the context builds) and the inference call succeeds,
handle_chat returns 200 with reply equal, character for character, to the
content of the inference response, and the trace shows exactly one
memory-write, attempted after the inference call, whatever the write
outcome. -/
theorem handle_chat_success_reply_and_single_write
    (req : ChatRequest) (body : MemReadBody) (ctx content : String) (write : WriteOutcome)
    (hctx : memory_context (body.memories.getD []) = .ok ctx) :
    (handle_chat req (.ok body) (.ok content) write).result = .ok content ∧
    countWrites (handle_chat req (.ok body) (.ok content) write).trace = 1 ∧
    (handle_chat req (.ok body) (.ok content) write).trace =
      [.memRead req.user_id, .infer (build_infer_call ctx req.message),
       .memWrite req.user_id (interaction_to_save req.message content),
       write_log write] := by
  cases write <;>
    simp [handle_chat, hctx, countWrites, isWriteEvent, write_log, List.filter]

/-- Witness for C1 at a concrete request with one stored memory. -/
theorem handle_chat_success_reply_and_single_write_witness :
    (handle_chat ⟨"u1", "hi"⟩ (.ok ⟨some [⟨some "likes tea"⟩]⟩)
        (.ok "Hello!") (.status 200)).result = .ok "Hello!" ∧
    countWrites (handle_chat ⟨"u1", "hi"⟩ (.ok ⟨some [⟨some "likes tea"⟩]⟩)
        (.ok "Hello!") (.status 200)).trace = 1 ∧
    (handle_chat ⟨"u1", "hi"⟩ (.ok ⟨some [⟨some "likes tea"⟩]⟩)
        (.ok "Hello!") (.status 200)).trace =
      [.memRead "u1",
       .infer (build_infer_call "--- Start of Memories ---\nlikes tea\n--- End of Memories ---" "hi"),
       .memWrite "u1" (interaction_to_save "hi" "Hello!"),
       write_log (.status 200)] :=
  handle_chat_success_reply_and_single_write ⟨"u1", "hi"⟩ ⟨some [⟨some "likes tea"⟩]⟩
    "--- Start of Memories ---\nlikes tea\n--- End of Memories ---" "Hello!" (.status 200) rfl

/-- Claim C2: when the memory-read fails with a RequestException (network
error or non-2xx status via raise_for_status), handle_chat responds 500
with detail exactly "Failed to retrieve memories.", and the trace holds
only the memory-read: the inference service is never called. -/
theorem handle_chat_read_failure
    (req : ChatRequest) (infer : InferOutcome) (write : WriteOutcome) :
    (handle_chat req .requestError infer write).result =
      .httpError 500 "Failed to retrieve memories." ∧
    countInfers (handle_chat req .requestError infer write).trace = 0 ∧
    (handle_chat req .requestError infer write).trace = [.memRead req.user_id] := by
  simp [handle_chat, countInfers, isInferEvent, List.filter]

/-- Claim C3: when the memory-read succeeds (context built) but the
inference call raises any exception, handle_chat responds 500 with detail
exactly "Failed to get response from LLM." and no memory-write appears in
the trace. -/
theorem handle_chat_infer_failure
    (req : ChatRequest) (body : MemReadBody) (ctx : String) (write : WriteOutcome)
    (hctx : memory_context (body.memories.getD []) = .ok ctx) :
    (handle_chat req (.ok body) .exn write).result =
      .httpError 500 "Failed to get response from LLM." ∧
    countWrites (handle_chat req (.ok body) .exn write).trace = 0 := by
  simp [handle_chat, hctx, countWrites, isWriteEvent, List.filter]

/-- Witness for C3 at a concrete request with no stored memories. -/
theorem handle_chat_infer_failure_witness :
    (handle_chat ⟨"u1", "hi"⟩ (.ok ⟨some []⟩) .exn .requestError).result =
      .httpError 500 "Failed to get response from LLM." ∧
    countWrites (handle_chat ⟨"u1", "hi"⟩ (.ok ⟨some []⟩) .exn .requestError).trace = 0 :=
  handle_chat_infer_failure ⟨"u1", "hi"⟩ ⟨some []⟩ bootstrap_context .requestError rfl

/-- Claim C4: when memory-read and inference succeed but the memory-write
raises a RequestException, handle_chat still returns 200 with the reply
computed before the write, identical to the reply produced when the write
succeeds: the write failure raises nothing and alters nothing. -/
theorem handle_chat_write_failure
    (req : ChatRequest) (body : MemReadBody) (ctx content : String)
    (hctx : memory_context (body.memories.getD []) = .ok ctx) :
    (handle_chat req (.ok body) (.ok content) .requestError).result = .ok content ∧
    (handle_chat req (.ok body) (.ok content) .requestError).result =
      (handle_chat req (.ok body) (.ok content) (.status 200)).result := by
  simp [handle_chat, hctx]

/-- Witness for C4 at a concrete request. -/
theorem handle_chat_write_failure_witness :
    (handle_chat ⟨"u1", "hi"⟩ (.ok ⟨some []⟩) (.ok "Hello!") .requestError).result =
      .ok "Hello!" ∧
    (handle_chat ⟨"u1", "hi"⟩ (.ok ⟨some []⟩) (.ok "Hello!") .requestError).result =
      (handle_chat ⟨"u1", "hi"⟩ (.ok ⟨some []⟩) (.ok "Hello!") (.status 200)).result :=
  handle_chat_write_failure ⟨"u1", "hi"⟩ ⟨some []⟩ bootstrap_context "Hello!" rfl

/-- Claim C5: on a successful read with N>0 records whose texts are the
list texts (in service order, as the first conjunct records), the context
is the fixed delimiters around the newline-join of the texts, and that
string decomposes so that each text is used exactly once, in the order
received; with 0 records the context is the fixed bootstrap string, which
is not empty. -/
theorem memory_context_ordered
    (memories : List MemoryRecord) (texts : List String)
    (hfmt : mem_texts memories = .ok texts) (hne : memories ≠ []) :
    memories.map MemoryRecord.text = texts.map some ∧
    memory_context memories =
      .ok ("--- Start of Memories ---\n" ++ (joinNL texts ++ "\n--- End of Memories ---")) ∧
    embedsInOrder
      ("--- Start of Memories ---\n" ++ (joinNL texts ++ "\n--- End of Memories ---")) texts ∧
    memory_context [] = .ok bootstrap_context ∧
    bootstrap_context ≠ "" := by
  refine ⟨mem_texts_map memories texts hfmt, ?_, embedsInOrder_joinNL texts _ _, rfl, by decide⟩
  cases memories with
  | nil => exact absurd rfl hne
  | cons r rs =>
    simp [memory_context, hfmt, Except.map, string_append_assoc]

/-- Witness for C5 at a two-record read. -/
theorem memory_context_ordered_witness :
    ([⟨some "a"⟩, ⟨some "b"⟩] : List MemoryRecord).map MemoryRecord.text =
      (["a", "b"].map some) ∧
    memory_context [⟨some "a"⟩, ⟨some "b"⟩] =
      .ok ("--- Start of Memories ---\n" ++ (joinNL ["a", "b"] ++ "\n--- End of Memories ---")) ∧
    embedsInOrder
      ("--- Start of Memories ---\n" ++ (joinNL ["a", "b"] ++ "\n--- End of Memories ---"))
      ["a", "b"] ∧
    memory_context [] = .ok bootstrap_context ∧
    bootstrap_context ≠ "" :=
  memory_context_ordered [⟨some "a"⟩, ⟨some "b"⟩] ["a", "b"] rfl (by simp)

/-- Claim C6: every request that reaches the inference call invokes it
exactly once, with exactly the three messages system persona, then the
memory context as a second system message, then the user turn, the fixed
model identifier "llama3-8b-8192" and temperature 0.7, whatever the
inference and write outcomes. -/
theorem infer_call_three_messages
    (req : ChatRequest) (body : MemReadBody) (ctx : String)
    (infer : InferOutcome) (write : WriteOutcome)
    (hctx : memory_context (body.memories.getD []) = .ok ctx) :
    Event.infer (build_infer_call ctx req.message) ∈
      (handle_chat req (.ok body) infer write).trace ∧
    countInfers (handle_chat req (.ok body) infer write).trace = 1 ∧
    (build_infer_call ctx req.message).messages =
      [{ role := "system", content := system_prompt },
       { role := "system", content := ctx },
       { role := "user", content := req.message }] ∧
    (build_infer_call ctx req.message).model = "llama3-8b-8192" ∧
    (build_infer_call ctx req.message).temperature = 7 / 10 := by
  cases infer <;> cases write <;>
    simp [handle_chat, hctx, countInfers, isInferEvent, write_log, List.filter,
      build_infer_call, build_messages]

/-- Witness for C6 at a concrete request with no stored memories. -/
theorem infer_call_three_messages_witness :
    Event.infer (build_infer_call bootstrap_context "hi") ∈
      (handle_chat ⟨"u1", "hi"⟩ (.ok ⟨some []⟩) (.ok "Hello!") (.status 200)).trace ∧
    countInfers (handle_chat ⟨"u1", "hi"⟩ (.ok ⟨some []⟩) (.ok "Hello!") (.status 200)).trace = 1 ∧
    (build_infer_call bootstrap_context "hi").messages =
      [{ role := "system", content := system_prompt },
       { role := "system", content := bootstrap_context },
       { role := "user", content := "hi" }] ∧
    (build_infer_call bootstrap_context "hi").model = "llama3-8b-8192" ∧
    (build_infer_call bootstrap_context "hi").temperature = 7 / 10 :=
  infer_call_three_messages ⟨"u1", "hi"⟩ ⟨some []⟩ bootstrap_context
    (.ok "Hello!") (.status 200) rfl

/-- Claim C7 counterexample: the pydantic model declares user_id as a
plain str, so the empty string passes validation and the request is
processed (the handler proceeds to its memory-read for user_id ""), not
rejected. -/
theorem empty_user_id_accepted :
    validate_chat_request { user_id := some "", message := some "hi" } =
      some { user_id := "", message := "hi" } ∧
    (handle_chat { user_id := "", message := "hi" } .requestError .exn .requestError).trace =
      [.memRead ""] :=
  ⟨rfl, rfl⟩

/-- Claim C7 amended: validation accepts a body exactly when both declared
fields are present with string values; any strings are accepted, the empty
user_id included, and they are carried into the ChatRequest unchanged. -/
theorem chat_request_validation (b : RawChatBody) (u m : String) :
    ((validate_chat_request b).isSome ↔ b.user_id.isSome ∧ b.message.isSome) ∧
    validate_chat_request { user_id := some u, message := some m } =
      some { user_id := u, message := m } := by
  refine ⟨?_, rfl⟩
  cases hu : b.user_id <;> cases hm : b.message <;>
    simp [validate_chat_request, hu, hm]

/-- Claim C8: a successful memory-read whose memories list holds a record
without the text key makes the handler raise an uncaught KeyError (the
step-1 handler only catches RequestException), not the fixed retrieval
500. -/
theorem missing_text_key_uncaught
    (req : ChatRequest) (body : MemReadBody) (ms : List MemoryRecord) (r : MemoryRecord)
    (infer : InferOutcome) (write : WriteOutcome)
    (hms : body.memories = some ms) (hr : r ∈ ms) (hnone : r.text = none) :
    (handle_chat req (.ok body) infer write).result = .uncaughtKeyError "text" ∧
    (handle_chat req (.ok body) infer write).result ≠
      .httpError 500 "Failed to retrieve memories." := by
  have herr := mem_texts_error ms r hr hnone
  have hctx : memory_context ms = .error "text" := by
    cases ms with
    | nil => exact absurd hr (List.not_mem_nil r)
    | cons r0 rs => simp [memory_context, herr, Except.map]
  constructor <;> simp [handle_chat, hms, hctx]

/-- Witness for C8 at a read returning one record without text. -/
theorem missing_text_key_uncaught_witness :
    (handle_chat ⟨"u1", "hi"⟩ (.ok ⟨some [⟨none⟩]⟩) .exn .requestError).result =
      .uncaughtKeyError "text" ∧
    (handle_chat ⟨"u1", "hi"⟩ (.ok ⟨some [⟨none⟩]⟩) .exn .requestError).result ≠
      .httpError 500 "Failed to retrieve memories." :=
  missing_text_key_uncaught ⟨"u1", "hi"⟩ ⟨some [⟨none⟩]⟩ [⟨none⟩] ⟨none⟩
    .exn .requestError rfl (by simp) rfl

/-- Claim C9: the status of the memory-write response is never inspected:
for every status code, non-2xx included, the write raises nothing, the
step logs success (never the warning), and the request returns 200 with
the computed reply. -/
theorem write_status_never_checked
    (req : ChatRequest) (body : MemReadBody) (ctx content : String) (code : Nat)
    (hctx : memory_context (body.memories.getD []) = .ok ctx) :
    (handle_chat req (.ok body) (.ok content) (.status code)).result = .ok content ∧
    (handle_chat req (.ok body) (.ok content) (.status code)).trace =
      [.memRead req.user_id, .infer (build_infer_call ctx req.message),
       .memWrite req.user_id (interaction_to_save req.message content),
       .logWriteSuccess] := by
  simp [handle_chat, hctx, write_log]

/-- Witness for C9 at a write answered with status 404. -/
theorem write_status_never_checked_witness :
    (handle_chat ⟨"u1", "hi"⟩ (.ok ⟨some []⟩) (.ok "Hello!") (.status 404)).result =
      .ok "Hello!" ∧
    (handle_chat ⟨"u1", "hi"⟩ (.ok ⟨some []⟩) (.ok "Hello!") (.status 404)).trace =
      [.memRead "u1", .infer (build_infer_call bootstrap_context "hi"),
       .memWrite "u1" (interaction_to_save "hi" "Hello!"),
       .logWriteSuccess] :=
  write_status_never_checked ⟨"u1", "hi"⟩ ⟨some []⟩ bootstrap_context "Hello!" 404 rfl

/-- Claim C10: a successful read whose JSON body lacks the memories key is
treated as zero records: the handler behaves exactly as on an empty list,
uses the bootstrap context, and reaches the inference call instead of
failing. -/
theorem missing_memories_key_bootstrap
    (req : ChatRequest) (infer : InferOutcome) (write : WriteOutcome) :
    memory_context ((MemReadBody.mk none).memories.getD []) = .ok bootstrap_context ∧
    handle_chat req (.ok (MemReadBody.mk none)) infer write =
      handle_chat req (.ok (MemReadBody.mk (some []))) infer write ∧
    Event.infer (build_infer_call bootstrap_context req.message) ∈
      (handle_chat req (.ok (MemReadBody.mk none)) infer write).trace := by
  refine ⟨rfl, rfl, ?_⟩
  cases infer <;> simp [handle_chat, memory_context]

end MemoryAgent
